import Mathlib

/-!
Shallow embedding of the claii CLI/REPL core (src/claii/cli.py): the
SQLite-backed session and message store, the history accessor, the
streaming chat engine, and the REPL command dispatch.

Modelling conventions:
* SQLite rows become Lean structures; the two tables become lists kept in
  rowid (insertion) order, with AUTOINCREMENT counters carried alongside.
* `DATETIME DEFAULT CURRENT_TIMESTAMP` is modelled twice.  The operational
  embedding (`save_history`, `new_sid`) stamps a per-insert logical clock;
  the chat-engine theorems use those stamps only existentially, so nothing
  there depends on that idealization.  The column's real semantics —
  second-granularity wall-clock values that repeat within a second, with
  `ORDER BY timestamp ASC` leaving the relative order of equal keys
  unspecified — is modelled by `save_history_at` (explicit `CURRENT_TIMESTAMP`
  value) and the relation `orderedByTs` (any timestamp-sorted permutation);
  the history-ordering analysis is carried out against that model.
* The openai streaming call is modelled by the list of delta contents the
  remote side delivers (each chunk optionally carries a text delta, as in
  `chunk['choices'][0].get('delta', {}).get('content')`), plus an optional
  `openai.error.OpenAIError` raised after those chunks.
* Python exceptions that the source does not catch surface as `Except.error`.
* `print` output is modelled as accumulated strings.
-/

namespace Claii

/-- A row of `chat_sessions(id, title, model, provider, updated)`. -/
structure SessionRow where
  id : Int
  title : String
  model : String
  provider : String
  updated : Nat
  deriving Repr, DecidableEq

/-- A row of `chat_messages(id, sid, role, content, timestamp)`. -/
structure MessageRow where
  id : Int
  sid : Int
  role : String
  content : String
  timestamp : Nat
  deriving Repr, DecidableEq

/-- The SQLite database state: which tables exist in `sqlite_master`, the
rows of both tables in rowid order, the AUTOINCREMENT counters, and the
logical clock supplying `CURRENT_TIMESTAMP` values. -/
structure DB where
  hasSessionsTable : Bool
  hasMessagesTable : Bool
  sessions : List SessionRow
  messages : List MessageRow
  nextSessionId : Int
  nextMessageId : Int
  clock : Nat
  deriving Repr, DecidableEq

/-- A freshly initialized store (after `setup_local_dbs` on a new file):
both tables exist and are empty; AUTOINCREMENT starts at 1. -/
def initDB : DB :=
  { hasSessionsTable := true, hasMessagesTable := true,
    sessions := [], messages := [],
    nextSessionId := 1, nextMessageId := 1, clock := 0 }

/-- Insertion step of sorting message rows by their `timestamp` column. -/
def insertByTs (m : MessageRow) : List MessageRow → List MessageRow
  | [] => [m]
  | x :: xs => if m.timestamp ≤ x.timestamp then m :: x :: xs else x :: insertByTs m xs

/-- `ORDER BY timestamp ASC` over message rows. -/
def sortByTs : List MessageRow → List MessageRow
  | [] => []
  | x :: xs => insertByTs x (sortByTs xs)

/-- Insertion step of sorting session rows by their `updated` column. -/
def insertByUpdated (s : SessionRow) : List SessionRow → List SessionRow
  | [] => [s]
  | x :: xs => if s.updated ≤ x.updated then s :: x :: xs else x :: insertByUpdated s xs

/-- `ORDER BY updated ASC` over session rows. -/
def sortByUpdated : List SessionRow → List SessionRow
  | [] => []
  | x :: xs => insertByUpdated x (sortByUpdated xs)

/-- `get_history(sid)`:
`SELECT role, content FROM chat_messages WHERE sid = ? ORDER BY timestamp ASC`. -/
def get_history (db : DB) (sid : Int) : List (String × String) :=
  (sortByTs (db.messages.filter (fun m => m.sid == sid))).map (fun m => (m.role, m.content))

/-- `save_history(sid, role, content)`:
`INSERT INTO chat_messages (sid, role, content) VALUES (?, ?, ?)` then commit.
The schema declares `sid integer NOT NULL references chat_sessions(id)`, but
the connection never issues `PRAGMA foreign_keys = ON`, and SQLite leaves
foreign keys unenforced by default, so the insert succeeds for any `sid`. -/
def save_history (db : DB) (sid : Int) (role content : String) : DB :=
  { db with
    messages := db.messages ++ [⟨db.nextMessageId, sid, role, content, db.clock⟩],
    nextMessageId := db.nextMessageId + 1,
    clock := db.clock + 1 }

/-- `new_sid(title)`: inserts a `chat_sessions` row with the fixed model and
provider, commits, and returns `lastrowid`. -/
def new_sid (db : DB) (title : String) : DB × Int :=
  ({ db with
     sessions := db.sessions ++ [⟨db.nextSessionId, title, "gpt-3.5-turbo", "openai", db.clock⟩],
     nextSessionId := db.nextSessionId + 1,
     clock := db.clock + 1 }, db.nextSessionId)

/-- `set_session_title(sid, title)`:
`UPDATE chat_sessions SET title = ? WHERE id = ?` then commit.
A no-op when no row has that id. -/
def set_session_title (db : DB) (sid : Int) (title : String) : DB :=
  { db with
    sessions := db.sessions.map (fun s => if s.id == sid then { s with title := title } else s) }

/-- `save_history(sid, role, content)` with the value SQLite assigns to the
`DATETIME DEFAULT CURRENT_TIMESTAMP` column made explicit: `now` is the
wall-clock second observed at insert time.  The wall clock has second
granularity and is only non-decreasing across inserts, so two inserts
executed within the same second receive equal `timestamp` values. -/
def save_history_at (db : DB) (now : Nat) (sid : Int) (role content : String) : DB :=
  { db with
    messages := db.messages ++ [⟨db.nextMessageId, sid, role, content, now⟩],
    nextMessageId := db.nextMessageId + 1 }

/-- An admissible result of `ORDER BY timestamp ASC`: some permutation of the
selected rows that is non-decreasing in `timestamp`.  SQLite guarantees
nothing about the relative order of rows whose sort keys are equal. -/
def orderedByTs (rows out : List MessageRow) : Prop :=
  out.Perm rows ∧ out.Pairwise (fun a b => a.timestamp ≤ b.timestamp)

/-- `out` is an admissible value of `get_history(sid)` —
`SELECT role, content FROM chat_messages WHERE sid = ? ORDER BY timestamp ASC` —
under the unspecified tie order of `ORDER BY`. -/
def get_history_can_return (db : DB) (sid : Int) (out : List (String × String)) : Prop :=
  ∃ rows, orderedByTs (db.messages.filter (fun m => m.sid == sid)) rows
    ∧ out = rows.map (fun m => (m.role, m.content))

/-- One streaming response from `openai.ChatCompletion.create(..., stream=True)`:
the delta contents carried by the successive chunks (`none` when a chunk has
no `delta`/`content` key), and, when the call fails, the `OpenAIError` raised
after those chunks were delivered (`some` error text). -/
structure StreamResult where
  chunks : List (Option String)
  error : Option String
  deriving Repr, DecidableEq

/-- The delta texts that pass the `if content:` truthiness test, in arrival
order: present and non-empty. -/
def deltaTexts (chunks : List (Option String)) : List String :=
  chunks.filterMap (fun c =>
    match c with
    | some s => if s = "" then none else some s
    | none => none)

/-- `''.join(response)` for the accumulated deltas. -/
def joinDeltas (chunks : List (Option String)) : String :=
  String.join (deltaTexts chunks)

/-- The default system prompt used for brand-new sessions. -/
def system_content : String := "You are a helpful assistant."

/-- Result of one successful `chat(prompt, sid)` call: the store afterwards,
the returned session id, the `messages` list handed to the completion API,
and what the turn wrote to stdout. -/
structure ChatResult where
  db : DB
  sid : Int
  sent : List (String × String)
  output : String
  deriving Repr, DecidableEq

/-- The session-resolution block of `chat(prompt, sid)` (cli.py lines 81-99):
the `if sid:` / `else` split that yields the store after resolution, the
resolved session id, and the initial in-memory `messages` context.
`sid0 = some 0` falls into the fresh-session branch because Python's
`if sid:` treats 0 as false.  When `sid` is truthy but names no stored
session, `res.fetchone()` returns `None` and `session['title']` raises an
uncaught `TypeError`, modelled as `Except.error`. -/
def resolveSession (prompt : String) (sid0 : Option Int) (db0 : DB) :
    Except String (DB × Int × List (String × String)) :=
  match sid0 with
  | some s =>
    if s ≠ 0 then
      match db0.sessions.find? (fun row => row.id == s) with
      | none => .error "TypeError: NoneType object is not subscriptable"
      | some session =>
        let db1 := if session.title = "" then set_session_title db0 s (prompt.take 50) else db0
        .ok (db1, s, get_history db1 s)
    else
      let p := new_sid db0 (prompt.take 50)
      .ok (p.1, p.2, [("system", system_content)])
  | none =>
    let p := new_sid db0 (prompt.take 50)
    .ok (p.1, p.2, [("system", system_content)])

/-- `chat(prompt, sid)` from cli.py, lines 76-119: resolve the session, append
the user message to the context and to durable storage, then stream the
completion.  An `OpenAIError` from the streaming call is caught: the error
text is printed and no assistant row is committed. -/
def chat (prompt : String) (sid0 : Option Int) (stream : StreamResult) (db0 : DB) :
    Except String ChatResult :=
  match resolveSession prompt sid0 db0 with
  | .error e => .error e
  | .ok (db1, s, msgs) =>
    let sent := msgs ++ [("user", prompt)]
    let db2 := save_history db1 s "user" prompt
    let streamed := joinDeltas stream.chunks
    match stream.error with
    | some e => .ok ⟨db2, s, sent, streamed ++ e ++ "\n"⟩
    | none => .ok ⟨save_history db2 s "assistant" streamed, s, sent, streamed ++ "\n"⟩

/-! ### The REPL (`ClaiRepl`) -/

/-- REPL state: the store, the current session selection (`self.sid`,
`None` at startup), and the lines printed so far. -/
structure ReplState where
  db : DB
  sid : Option Int
  printed : List String
  deriving Repr, DecidableEq

/-- `setup_local_dbs`: queries `sqlite_master` for the `chat_messages` table;
when absent, runs the two `CREATE TABLE` statements and commits.  The first
`CREATE TABLE chat_sessions` raises (storage-initialization failure, fatal)
if that table already exists on its own. -/
def setup_local_dbs (db : DB) : Except String DB :=
  if db.hasMessagesTable then .ok db
  else if db.hasSessionsTable then .error "table chat_sessions already exists"
  else .ok { db with hasSessionsTable := true, hasMessagesTable := true }

/-- The command names registered via the `@name` decorator. -/
def real_commands : List String := [":hello", ":quit", ":ss", ":cs", ":sh", ":sm"]

/-- Character-level split at the first space, if any. -/
def splitAtSpace : List Char → List Char × List Char
  | [] => ([], [])
  | c :: rest =>
    if c = ' ' then ([], rest)
    else
      let p := splitAtSpace rest
      (c :: p.1, p.2)

/-- `line.partition(' ')` restricted to the two components the code uses:
the text before the first space and the text after it (empty when the line
has no space). -/
def partitionSpace (line : String) : String × String :=
  let p := splitAtSpace line.toList
  (String.mk p.1, String.mk p.2)

/-- `:hello` — prints a greeting. -/
def hello (arg : String) (st : ReplState) : ReplState :=
  { st with printed := st.printed ++ ["Hello, " ++ arg] }

/-- `:ss` — lists all chat sessions, `ORDER BY updated ASC`. -/
def list_sessions (arg : String) (st : ReplState) : ReplState :=
  let lines := (sortByUpdated st.db.sessions).map
    (fun r => toString r.id ++ ": " ++ r.title ++ " (" ++ toString r.updated ++ ")")
  { st with printed := st.printed ++ lines }

/-- Accumulator pass over decimal digits; `none` at the first non-digit. -/
def parseDigits : List Char → Nat → Option Nat
  | [], acc => some acc
  | c :: rest, acc =>
    if c.isDigit then parseDigits rest (acc * 10 + (c.toNat - 48)) else none

/-- Python's `int(arg)` on a decimal literal with an optional sign;
any other argument raises ValueError, modelled as `none`.  (Surrounding
whitespace and digit-group underscores, which `int` also accepts, are not
modelled.) -/
def pyInt (s : String) : Option Int :=
  match s.toList with
  | [] => none
  | '-' :: rest => if rest = [] then none else (parseDigits rest 0).map (fun n => -(n : Int))
  | '+' :: rest => if rest = [] then none else (parseDigits rest 0).map (fun n => (n : Int))
  | cs => (parseDigits cs 0).map (fun n => (n : Int))

/-- `:cs` — continue a saved session (cli.py lines 229-242).  When the parsed
id is not among the stored session ids the handler prints
`unknown session id: ...`, but — unlike the parse-failure branch above it —
does not return, so `self.sid = sid` still runs and the selection switches
to the unknown id. -/
def continue_session (arg : String) (st : ReplState) : ReplState :=
  match pyInt arg with
  | none => { st with printed := st.printed ++ ["please specify a session id"] }
  | some sid =>
    let ids := st.db.sessions.map (fun r => r.id)
    let printed1 :=
      if ids.contains sid then st.printed
      else st.printed ++ ["unknown session id: " ++ toString sid]
    { st with printed := printed1, sid := some sid }

/-- `:sh` — show the current session's history, `ORDER BY timestamp ASC`. -/
def session_history (arg : String) (st : ReplState) : ReplState :=
  match st.sid with
  | none => { st with printed := st.printed ++ ["no session selected"] }
  | some s =>
    let lines := (sortByTs (st.db.messages.filter (fun m => m.sid == s))).map
      (fun m => toString m.timestamp ++ " " ++ m.role ++ ": " ++ m.content)
    { st with printed := st.printed ++ lines }

/-- `:sm` — create a blank-titled session seeded with a system message and
select it. -/
def system_message (arg : String) (st : ReplState) : ReplState :=
  let p := new_sid st.db ""
  { st with db := save_history p.1 p.2 "system" arg, sid := some p.2 }

/-- The dispatch table `self.real_commands` applied to a recognized command. -/
def dispatch (command arg : String) (st : ReplState) : ReplState :=
  if command = ":hello" then hello arg st
  else if command = ":quit" then st
  else if command = ":ss" then list_sessions arg st
  else if command = ":cs" then continue_session arg st
  else if command = ":sh" then session_history arg st
  else if command = ":sm" then system_message arg st
  else st

/-- `ClaiRepl.default` (cli.py lines 177-185): recognized commands run inside
`try/except Exception` (their errors are printed, never propagated; the
handlers modelled here are total, so that branch always succeeds).  Any other
line becomes a chat turn via `self.sid = chat(line, self.sid)` — a call NOT
wrapped in try/except, so an exception escaping `chat` propagates out of the
`cmd.Cmd` loop and terminates the REPL (`Except.error`). -/
def default_line (line : String) (stream : StreamResult) (st : ReplState) :
    Except String ReplState :=
  let pa := partitionSpace line
  if real_commands.contains pa.1 then
    .ok (dispatch pa.1 pa.2 st)
  else
    match chat line st.sid stream st.db with
    | .error e => .error e
    | .ok r => .ok { st with db := r.db, sid := some r.sid, printed := st.printed ++ [r.output] }

/-! ### Sorting lemmas -/

/-- Message rows in strictly increasing timestamp order. -/
def tsSorted (l : List MessageRow) : Prop :=
  l.Pairwise (fun a b => a.timestamp < b.timestamp)

theorem insertByTs_of_le (m : MessageRow) (l : List MessageRow)
    (h : ∀ x ∈ l, m.timestamp ≤ x.timestamp) : insertByTs m l = m :: l := by
  cases l with
  | nil => rfl
  | cons x xs => simp [insertByTs, h x (List.mem_cons_self x xs)]

theorem sortByTs_eq_self (l : List MessageRow) (h : tsSorted l) : sortByTs l = l := by
  induction l with
  | nil => rfl
  | cons x xs ih =>
    have hx : ∀ y ∈ xs, x.timestamp ≤ y.timestamp :=
      fun y hy => le_of_lt (List.rel_of_pairwise_cons h hy)
    rw [sortByTs, ih (List.Pairwise.of_cons h), insertByTs_of_le x xs hx]

theorem mem_insertByTs (m x : MessageRow) (l : List MessageRow) :
    x ∈ insertByTs m l ↔ x = m ∨ x ∈ l := by
  induction l with
  | nil => simp [insertByTs]
  | cons y ys ih =>
    by_cases hc : m.timestamp ≤ y.timestamp
    · simp [insertByTs, hc]
    · simp only [insertByTs, if_neg hc, List.mem_cons, ih]
      tauto

theorem mem_sortByTs (x : MessageRow) (l : List MessageRow) : x ∈ sortByTs l ↔ x ∈ l := by
  induction l with
  | nil => simp [sortByTs]
  | cons y ys ih => simp [sortByTs, mem_insertByTs, ih]

/-! ### Basic facts about the store operations -/

theorem save_history_messages (db : DB) (sid : Int) (role content : String) :
    (save_history db sid role content).messages
      = db.messages ++ [⟨db.nextMessageId, sid, role, content, db.clock⟩] := rfl

theorem save_history_sessions (db : DB) (sid : Int) (role content : String) :
    (save_history db sid role content).sessions = db.sessions := rfl

theorem new_sid_messages (db : DB) (t : String) : (new_sid db t).1.messages = db.messages := rfl

theorem set_session_title_messages (db : DB) (sid : Int) (t : String) :
    (set_session_title db sid t).messages = db.messages := rfl

theorem get_history_congr (db1 db2 : DB) (sid : Int) (h : db1.messages = db2.messages) :
    get_history db1 sid = get_history db2 sid := by
  unfold get_history
  rw [h]

/-! ### Timestamp granularity and the `ORDER BY` tie order -/

theorem save_history_at_messages (db : DB) (now : Nat) (sid : Int) (role content : String) :
    (save_history_at db now sid role content).messages
      = db.messages ++ [⟨db.nextMessageId, sid, role, content, now⟩] := rfl

theorem insertByTs_perm (m : MessageRow) (l : List MessageRow) :
    (insertByTs m l).Perm (m :: l) := by
  induction l with
  | nil => exact List.Perm.refl _
  | cons x xs ih =>
    by_cases hc : m.timestamp ≤ x.timestamp
    · rw [insertByTs, if_pos hc]
    · rw [insertByTs, if_neg hc]
      exact List.Perm.trans (ih.cons x) (List.Perm.swap m x xs)

theorem sortByTs_perm (l : List MessageRow) : (sortByTs l).Perm l := by
  induction l with
  | nil => exact List.Perm.refl _
  | cons x xs ih =>
    exact List.Perm.trans (insertByTs_perm x (sortByTs xs)) (ih.cons x)

theorem insertByTs_sorted (m : MessageRow) (l : List MessageRow)
    (h : l.Pairwise (fun a b => a.timestamp ≤ b.timestamp)) :
    (insertByTs m l).Pairwise (fun a b => a.timestamp ≤ b.timestamp) := by
  induction l with
  | nil => simp [insertByTs]
  | cons x xs ih =>
    by_cases hc : m.timestamp ≤ x.timestamp
    · rw [insertByTs, if_pos hc]
      refine List.Pairwise.cons ?_ h
      intro b hb
      rcases List.mem_cons.mp hb with h1 | h1
      · rw [h1]
        exact hc
      · exact le_trans hc (List.rel_of_pairwise_cons h h1)
    · rw [insertByTs, if_neg hc]
      refine List.Pairwise.cons ?_ (ih (List.Pairwise.of_cons h))
      intro b hb
      rcases (mem_insertByTs m b xs).mp hb with h1 | h1
      · rw [h1]
        exact le_of_not_le hc
      · exact List.rel_of_pairwise_cons h h1

theorem sortByTs_sorted (l : List MessageRow) :
    (sortByTs l).Pairwise (fun a b => a.timestamp ≤ b.timestamp) := by
  induction l with
  | nil => simp [sortByTs]
  | cons x xs ih => exact insertByTs_sorted x (sortByTs xs) ih

/-- The deterministic `get_history` used by the chat engine is one admissible
result of the relational `ORDER BY` specification. -/
theorem get_history_is_admissible (db : DB) (sid : Int) :
    get_history_can_return db sid (get_history db sid) :=
  ⟨sortByTs (db.messages.filter (fun m => m.sid == sid)),
    ⟨sortByTs_perm _, sortByTs_sorted _⟩, rfl⟩

/-- A timestamp-sorted permutation of a list with strictly increasing
timestamps is that list itself: distinct sort keys leave `ORDER BY` no
freedom. -/
theorem perm_sorted_eq : ∀ (l out : List MessageRow),
    tsSorted l →
    out.Perm l →
    out.Pairwise (fun a b => a.timestamp ≤ b.timestamp) →
    out = l := by
  intro l
  induction l with
  | nil =>
    intro out _ hperm _
    exact hperm.eq_nil
  | cons x xs ih =>
    intro out hl hperm hout
    cases out with
    | nil =>
      have h0 : x :: xs = [] := hperm.symm.eq_nil
      simp at h0
    | cons y ys =>
      have hyx : y = x := by
        have hy : y ∈ x :: xs := hperm.mem_iff.mp (List.mem_cons_self y ys)
        rcases List.mem_cons.mp hy with h1 | h1
        · exact h1
        · have hx : x ∈ y :: ys := hperm.mem_iff.mpr (List.mem_cons_self x xs)
          rcases List.mem_cons.mp hx with h2 | h2
          · exact h2.symm
          · have h3 : x.timestamp < y.timestamp := List.rel_of_pairwise_cons hl h1
            have h4 : y.timestamp ≤ x.timestamp := List.rel_of_pairwise_cons hout h2
            exact absurd (lt_of_lt_of_le h3 h4) (lt_irrefl _)
      subst hyx
      have hys : ys.Perm xs := hperm.cons_inv
      rw [ih ys (List.Pairwise.of_cons hl) hys (List.Pairwise.of_cons hout)]

/-- C9 (counterexample to the claim as stated): two messages appended to
session 1 during the same wall-clock second (`CURRENT_TIMESTAMP` has second
granularity, so both rows carry timestamp 5) admit the reversed list as a
result of `ORDER BY timestamp ASC` — it is a permutation of the session's
rows that is non-decreasing in timestamp — so loading is not guaranteed to
return the messages in append order. -/
theorem equal_timestamps_admit_non_append_order :
    get_history_can_return
      (save_history_at (save_history_at initDB 5 1 "user" "a") 5 1 "assistant" "b") 1
      [("assistant", "b"), ("user", "a")]
    ∧ [("assistant", "b"), ("user", "a")] ≠ [("user", "a"), ("assistant", "b")] := by
  constructor
  · refine ⟨[⟨2, 1, "assistant", "b", 5⟩, ⟨1, 1, "user", "a", 5⟩], ⟨?_, ?_⟩, rfl⟩
    · decide
    · decide
  · decide

/-- C9 (amended): messages are append-only and loading returns them sorted by
timestamp; whenever the timestamps stored for a session are strictly
increasing in append order (the wall clock advanced between that session's
inserts), every admissible `ORDER BY` result is exactly the append order —
so the loaded order is determined and never changes — and a further append
carrying a strictly later timestamp extends every admissible result by
exactly that message at the end.  (When appends share a second, the relative
order of the tied rows is unspecified; see the counterexample.) -/
theorem get_history_distinct_timestamps_append_order (db : DB) (sid : Int)
    (hstrict : tsSorted (db.messages.filter (fun m => m.sid == sid))) :
    (∀ out, get_history_can_return db sid out →
       out = (db.messages.filter (fun m => m.sid == sid)).map (fun m => (m.role, m.content)))
    ∧ ∀ now role content,
        (∀ m ∈ db.messages, m.timestamp < now) →
        ∀ out, get_history_can_return (save_history_at db now sid role content) sid out →
          out = (db.messages.filter (fun m => m.sid == sid)).map (fun m => (m.role, m.content))
                ++ [(role, content)] := by
  constructor
  · intro out hout
    obtain ⟨rows, ⟨hperm, hsorted⟩, hmap⟩ := hout
    rw [hmap, perm_sorted_eq _ rows hstrict hperm hsorted]
  · intro now role content hlt out hout
    obtain ⟨rows, ⟨hperm, hsorted⟩, hmap⟩ := hout
    have hfilter : (save_history_at db now sid role content).messages.filter
          (fun m => m.sid == sid)
        = db.messages.filter (fun m => m.sid == sid)
          ++ [⟨db.nextMessageId, sid, role, content, now⟩] := by
      rw [save_history_at_messages, List.filter_append]
      simp
    have hstrict2 : tsSorted ((db.messages.filter (fun m => m.sid == sid))
        ++ [⟨db.nextMessageId, sid, role, content, now⟩]) := by
      rw [tsSorted, List.pairwise_append]
      refine ⟨hstrict, List.pairwise_singleton _ _, ?_⟩
      intro a ha b hb
      rw [List.mem_singleton] at hb
      rw [hb]
      exact hlt a (List.mem_of_mem_filter ha)
    rw [hfilter] at hperm
    rw [hmap, perm_sorted_eq _ rows hstrict2 hperm hsorted, List.map_append]
    rfl

/-- Witness for the amended C9: with the wall clock advancing between the two
appends (timestamps 1 and 2), the unique admissible load result for session 1
is the append order. -/
theorem get_history_distinct_timestamps_append_order_witness :
    [("user", "a"), ("assistant", "b")]
      = (((save_history_at (save_history_at initDB 1 1 "user" "a") 2 1 "assistant" "b").messages.filter
            (fun m => m.sid == 1)).map (fun m => (m.role, m.content))) :=
  (get_history_distinct_timestamps_append_order
      (save_history_at (save_history_at initDB 1 1 "user" "a") 2 1 "assistant" "b") 1
      (by unfold tsSorted; decide)).1
    [("user", "a"), ("assistant", "b")]
    ⟨[⟨1, 1, "user", "a", 1⟩, ⟨2, 1, "assistant", "b", 2⟩], ⟨by decide, by decide⟩, rfl⟩

/-! ### Inversion lemmas for the chat engine -/

theorem resolveSession_none (prompt : String) (db : DB) :
    resolveSession prompt none db
      = .ok ((new_sid db (prompt.take 50)).1, (new_sid db (prompt.take 50)).2,
             [("system", system_content)]) := rfl

theorem resolveSession_messages (prompt : String) (sid0 : Option Int) (db db1 : DB)
    (s : Int) (msgs : List (String × String))
    (h : resolveSession prompt sid0 db = .ok (db1, s, msgs)) :
    db1.messages = db.messages := by
  cases sid0 with
  | none =>
    rw [resolveSession_none] at h
    simp only [Except.ok.injEq, Prod.mk.injEq] at h
    obtain ⟨h1, _, _⟩ := h
    rw [← h1]
    rfl
  | some sv =>
    simp only [resolveSession] at h
    by_cases hz : sv ≠ 0
    · rw [if_pos hz] at h
      cases hf : db.sessions.find? (fun row => row.id == sv) with
      | none => rw [hf] at h; simp at h
      | some sess =>
        rw [hf] at h
        simp only [Except.ok.injEq, Prod.mk.injEq] at h
        obtain ⟨h1, _, _⟩ := h
        rw [← h1]
        split <;> rfl
    · rw [if_neg hz] at h
      simp only [Except.ok.injEq, Prod.mk.injEq] at h
      obtain ⟨h1, _, _⟩ := h
      rw [← h1]
      rfl

theorem resolveSession_some_inv (prompt : String) (sv : Int) (db db1 : DB)
    (s : Int) (msgs : List (String × String)) (hz : sv ≠ 0)
    (h : resolveSession prompt (some sv) db = .ok (db1, s, msgs)) :
    s = sv ∧ msgs = get_history db1 sv ∧ db1.messages = db.messages := by
  simp only [resolveSession] at h
  rw [if_pos hz] at h
  cases hf : db.sessions.find? (fun row => row.id == sv) with
  | none => rw [hf] at h; simp at h
  | some sess =>
    rw [hf] at h
    simp only [Except.ok.injEq, Prod.mk.injEq] at h
    obtain ⟨h1, h2, h3⟩ := h
    subst h2
    subst h1
    exact ⟨rfl, h3.symm, by split <;> rfl⟩

theorem resolveSession_titled (prompt : String) (sv : Int) (db : DB) (sess : SessionRow)
    (hz : sv ≠ 0) (hfind : db.sessions.find? (fun row => row.id == sv) = some sess)
    (ht : ¬ sess.title = "") :
    resolveSession prompt (some sv) db = .ok (db, sv, get_history db sv) := by
  simp only [resolveSession, hfind, if_pos hz, if_neg ht]

theorem chat_ok_inv (prompt : String) (sid0 : Option Int) (stream : StreamResult)
    (db : DB) (r : ChatResult) (h : chat prompt sid0 stream db = .ok r) :
    ∃ db1 msgs, resolveSession prompt sid0 db = .ok (db1, r.sid, msgs)
      ∧ r.sent = msgs ++ [("user", prompt)]
      ∧ r.db = (match stream.error with
          | some _ => save_history db1 r.sid "user" prompt
          | none => save_history (save_history db1 r.sid "user" prompt) r.sid
                      "assistant" (joinDeltas stream.chunks))
      ∧ r.output = (match stream.error with
          | some e => joinDeltas stream.chunks ++ e ++ "\n"
          | none => joinDeltas stream.chunks ++ "\n") := by
  unfold chat at h
  cases hres : resolveSession prompt sid0 db with
  | error e => rw [hres] at h; simp at h
  | ok trip =>
    obtain ⟨db1, s, msgs⟩ := trip
    rw [hres] at h
    cases herr : stream.error with
    | some e =>
      rw [herr] at h
      simp only [Except.ok.injEq] at h
      subst h
      exact ⟨db1, msgs, rfl, rfl, rfl, rfl⟩
    | none =>
      rw [herr] at h
      simp only [Except.ok.injEq] at h
      subst h
      exact ⟨db1, msgs, rfl, rfl, rfl, rfl⟩

/-! ### Claim theorems -/

/-- C2: on every chat turn the user message is committed to the store before
the completion call, so when the remote call fails with a provider error
(`OpenAIError`), the turn ends with exactly the user message appended to
storage and no assistant message — not even a partial one — committed. -/
theorem chat_provider_error_persists_user (prompt : String) (sid0 : Option Int)
    (stream : StreamResult) (db : DB) (e : String) (r : ChatResult)
    (herr : stream.error = some e)
    (h : chat prompt sid0 stream db = .ok r) :
    ∃ mid ts, r.db.messages = db.messages ++ [⟨mid, r.sid, "user", prompt, ts⟩] := by
  obtain ⟨db1, msgs, hres, hsent, hdb, hout⟩ := chat_ok_inv _ _ _ _ _ h
  have hm : db1.messages = db.messages := resolveSession_messages _ _ _ _ _ _ hres
  simp only [herr] at hdb
  refine ⟨db1.nextMessageId, db1.clock, ?_⟩
  rw [hdb, save_history_messages, hm]

/-- Witness for C2: a forced provider failure on a fresh store leaves exactly
the user message in storage. -/
theorem chat_provider_error_persists_user_witness :
    ∃ r : ChatResult,
      chat "hi" none ⟨[], some "boom"⟩ initDB = .ok r
      ∧ ∃ mid ts, r.db.messages = initDB.messages ++ [⟨mid, r.sid, "user", "hi", ts⟩] :=
  ⟨_, rfl, chat_provider_error_persists_user "hi" none ⟨[], some "boom"⟩ initDB "boom" _ rfl rfl⟩

/-- C3: when the stream completes without error, the persisted assistant
message is the concatenation, in arrival order, of exactly the non-empty
text deltas (`joinDeltas`), and the turn's stdout output is that same
concatenation followed by a single trailing newline. -/
theorem chat_stream_concat (prompt : String) (sid0 : Option Int)
    (stream : StreamResult) (db : DB) (r : ChatResult)
    (hok : stream.error = none)
    (h : chat prompt sid0 stream db = .ok r) :
    (∃ umid uts mid ts,
       r.db.messages = db.messages
         ++ [⟨umid, r.sid, "user", prompt, uts⟩,
             ⟨mid, r.sid, "assistant", joinDeltas stream.chunks, ts⟩])
    ∧ r.output = joinDeltas stream.chunks ++ "\n" := by
  obtain ⟨db1, msgs, hres, hsent, hdb, hout⟩ := chat_ok_inv _ _ _ _ _ h
  have hm : db1.messages = db.messages := resolveSession_messages _ _ _ _ _ _ hres
  simp only [hok] at hdb hout
  constructor
  · refine ⟨db1.nextMessageId, db1.clock,
      (save_history db1 r.sid "user" prompt).nextMessageId,
      (save_history db1 r.sid "user" prompt).clock, ?_⟩
    rw [hdb, save_history_messages, save_history_messages, hm, List.append_assoc]
    rfl
  · exact hout

/-- Witness for C3: the spec's concrete chunk sequence persists
`"Hello, world"` and prints it with one trailing newline. -/
theorem chat_stream_concat_witness :
    joinDeltas [some "Hel", some "lo", some ", ", some "world"] = "Hello, world"
    ∧ ∃ r : ChatResult,
        chat "hi" none ⟨[some "Hel", some "lo", some ", ", some "world"], none⟩ initDB = .ok r
        ∧ ((∃ umid uts mid ts,
              r.db.messages = initDB.messages
                ++ [⟨umid, r.sid, "user", "hi", uts⟩,
                    ⟨mid, r.sid, "assistant",
                     joinDeltas [some "Hel", some "lo", some ", ", some "world"], ts⟩])
            ∧ r.output = joinDeltas [some "Hel", some "lo", some ", ", some "world"] ++ "\n") :=
  ⟨rfl, _, rfl,
    chat_stream_concat "hi" none ⟨[some "Hel", some "lo", some ", ", some "world"], none⟩
      initDB _ rfl rfl⟩

/-- C4: a further chat turn on a session whose title is already a non-empty
string leaves every stored session row — in particular that session's
title — unchanged: the title is set at most once, from the first prompt. -/
theorem chat_preserves_set_title (prompt : String) (s : Int) (stream : StreamResult)
    (db : DB) (sess : SessionRow) (r : ChatResult)
    (hz : s ≠ 0)
    (hfind : db.sessions.find? (fun row => row.id == s) = some sess)
    (ht : ¬ sess.title = "")
    (h : chat prompt (some s) stream db = .ok r) :
    r.db.sessions = db.sessions
    ∧ r.db.sessions.find? (fun row => row.id == s) = some sess := by
  obtain ⟨db1, msgs, hres, hsent, hdb, hout⟩ := chat_ok_inv _ _ _ _ _ h
  rw [resolveSession_titled prompt s db sess hz hfind ht] at hres
  simp only [Except.ok.injEq, Prod.mk.injEq] at hres
  obtain ⟨h1, _, _⟩ := hres
  subst h1
  have hsess : r.db.sessions = db.sessions := by
    cases herr : stream.error <;> simp only [herr] at hdb <;> rw [hdb] <;> rfl
  exact ⟨hsess, by rw [hsess, hfind]⟩

/-- Witness for C4: chatting again with a different prompt on a session
already titled `"T"` leaves the stored sessions unchanged. -/
theorem chat_preserves_set_title_witness :
    ∃ r : ChatResult,
      chat "different prompt" (some 1) ⟨[some "x"], none⟩ (new_sid initDB "T").1 = .ok r
      ∧ (r.db.sessions = (new_sid initDB "T").1.sessions
         ∧ r.db.sessions.find? (fun row => row.id == 1)
             = some ⟨1, "T", "gpt-3.5-turbo", "openai", 0⟩) :=
  ⟨_, rfl,
    chat_preserves_set_title "different prompt" 1 ⟨[some "x"], none⟩ (new_sid initDB "T").1
      ⟨1, "T", "gpt-3.5-turbo", "openai", 0⟩ _ (by decide) rfl (by decide) rfl⟩

/-- C5: a chat turn with no active session creates a new session whose title
is the first 50 characters of the prompt (all of it when shorter), and the
first stored message of that session has role `user` and content exactly the
prompt. -/
theorem chat_new_session (prompt : String) (stream : StreamResult) (db : DB) (r : ChatResult)
    (hfresh : ∀ m ∈ db.messages, m.sid ≠ db.nextSessionId)
    (h : chat prompt none stream db = .ok r) :
    r.sid = db.nextSessionId
    ∧ (∃ sess ∈ r.db.sessions, sess.id = r.sid ∧ sess.title = prompt.take 50)
    ∧ ((r.db.messages.filter (fun m => m.sid == r.sid)).map
         (fun m => (m.role, m.content))).head? = some ("user", prompt) := by
  obtain ⟨db1, msgs, hres, hsent, hdb, hout⟩ := chat_ok_inv _ _ _ _ _ h
  rw [resolveSession_none] at hres
  simp only [Except.ok.injEq, Prod.mk.injEq] at hres
  obtain ⟨h1, h2, h3⟩ := hres
  have hsid : r.sid = db.nextSessionId := h2.symm
  have hnil : db.messages.filter (fun m => m.sid == r.sid) = [] := by
    rw [List.filter_eq_nil_iff]
    intro m hm
    simp only [beq_iff_eq]
    rw [hsid]
    exact hfresh m hm
  refine ⟨hsid, ?_, ?_⟩
  · have hsessions : r.db.sessions = db.sessions
        ++ [⟨db.nextSessionId, prompt.take 50, "gpt-3.5-turbo", "openai", db.clock⟩] := by
      cases herr : stream.error <;> simp only [herr] at hdb <;> rw [hdb, ← h1] <;> rfl
    refine ⟨⟨db.nextSessionId, prompt.take 50, "gpt-3.5-turbo", "openai", db.clock⟩, ?_, ?_, ?_⟩
    · rw [hsessions]
      exact List.mem_append_right _ (List.mem_singleton_self _)
    · exact hsid.symm
    · simp
  · have hm1 : db1.messages = db.messages := by rw [← h1]; rfl
    cases herr : stream.error <;> simp only [herr] at hdb <;>
      rw [hdb] <;>
      simp [save_history_messages, hm1, List.filter_append, hnil]

/-- Witness for C5: the spec's round-trip example — creating a session with
prompt `"Explain recursion"` and no prior session yields that title and a
first stored message `("user", "Explain recursion")`. -/
theorem chat_new_session_witness :
    ∃ r : ChatResult,
      chat "Explain recursion" none ⟨[some "ok"], none⟩ initDB = .ok r
      ∧ (r.sid = initDB.nextSessionId
         ∧ (∃ sess ∈ r.db.sessions, sess.id = r.sid
              ∧ sess.title = "Explain recursion".take 50)
         ∧ ((r.db.messages.filter (fun m => m.sid == r.sid)).map
              (fun m => (m.role, m.content))).head?
            = some ("user", "Explain recursion")) :=
  ⟨_, rfl, chat_new_session "Explain recursion" ⟨[some "ok"], none⟩ initDB _
    (by intro m hm; simp [initDB] at hm) rfl⟩

theorem get_history_roles (db : DB) (s : Int) (e : String × String)
    (he : e ∈ get_history db s) :
    ∃ m ∈ db.messages, m.sid = s ∧ m.role = e.1 := by
  unfold get_history at he
  obtain ⟨m, hm, hme⟩ := List.mem_map.mp he
  rw [mem_sortByTs] at hm
  obtain ⟨hmem, hp⟩ := List.mem_filter.mp hm
  refine ⟨m, hmem, by simpa using hp, ?_⟩
  rw [← hme]

/-- C10: a first chat turn with no active session sends the default system
message (`'You are a helpful assistant.'`) at the head of the in-memory
context only; no message stored for the new session has role `system`, and
any later turn that resumes the session (from any store whose rows for that
session still contain no system message, which chat turns preserve) rebuilds
a context without any system message. -/
theorem chat_system_prompt_in_memory_only (p : String) (st1 : StreamResult) (db : DB)
    (r1 : ChatResult)
    (hid : db.nextSessionId ≠ 0)
    (hfresh : ∀ m ∈ db.messages, m.sid ≠ db.nextSessionId)
    (h1 : chat p none st1 db = .ok r1) :
    r1.sent.head? = some ("system", system_content)
    ∧ (∀ m ∈ r1.db.messages, m.sid = r1.sid → m.role ≠ "system")
    ∧ (∀ (db2 : DB) (p2 : String) (st2 : StreamResult) (r2 : ChatResult),
        (∀ m ∈ db2.messages, m.sid = r1.sid → m.role ≠ "system") →
        chat p2 (some r1.sid) st2 db2 = .ok r2 →
        ∀ e ∈ r2.sent, e.1 ≠ "system") := by
  obtain ⟨db1, msgs, hres, hsent, hdb, hout⟩ := chat_ok_inv _ _ _ _ _ h1
  rw [resolveSession_none] at hres
  simp only [Except.ok.injEq, Prod.mk.injEq] at hres
  obtain ⟨hdb1, hsid, hmsgs⟩ := hres
  have hsid' : r1.sid = db.nextSessionId := hsid.symm
  have hm1 : db1.messages = db.messages := by rw [← hdb1]; rfl
  refine ⟨?_, ?_, ?_⟩
  · rw [hsent, ← hmsgs]
    rfl
  · intro m hm hms
    have hmm : m ∈ db.messages ++ [⟨db1.nextMessageId, r1.sid, "user", p, db1.clock⟩]
        ∨ m.role = "user" ∨ m.role = "assistant" := by
      cases herr : st1.error <;> simp only [herr] at hdb <;>
        rw [hdb, save_history_messages] at hm
      · rw [save_history_messages, hm1, List.append_assoc] at hm
        rcases List.mem_append.mp hm with hold | hnew
        · exact Or.inl (List.mem_append_left _ hold)
        · simp only [List.cons_append, List.nil_append, List.mem_cons,
            List.mem_singleton, List.not_mem_nil, or_false] at hnew
          rcases hnew with h' | h' <;> subst h' <;> simp
      · rw [hm1] at hm
        exact Or.inl hm
    rcases hmm with hmm | hmm | hmm
    · rcases List.mem_append.mp hmm with hold | hnew
      · exact absurd (hms.trans hsid') (hfresh m hold)
      · rw [List.mem_singleton] at hnew
        subst hnew
        simp
    · rw [hmm]
      simp
    · rw [hmm]
      simp
  · intro db2 p2 st2 r2 hnosys h2 e he
    obtain ⟨db21, msgs2, hres2, hsent2, hdb2, hout2⟩ := chat_ok_inv _ _ _ _ _ h2
    have hz : r1.sid ≠ 0 := by rw [hsid']; exact hid
    obtain ⟨hs2, hmsgs2, hm2⟩ := resolveSession_some_inv _ _ _ _ _ _ hz hres2
    rw [hsent2, hmsgs2] at he
    rcases List.mem_append.mp he with hh | hu
    · obtain ⟨m, hmm, hmsid, hmrole⟩ := get_history_roles _ _ _ hh
      rw [hm2] at hmm
      rw [← hmrole]
      exact hnosys m hmm hmsid
    · rw [List.mem_singleton] at hu
      subst hu
      simp

/-- Witness for C10: on a fresh store, the first turn sends the system
message in-memory only and an immediate resume rebuilds a context without
any system message. -/
theorem chat_system_prompt_in_memory_only_witness :
    ∃ r1 : ChatResult,
      chat "hi" none ⟨[some "ok"], none⟩ initDB = .ok r1
      ∧ (r1.sent.head? = some ("system", system_content)
         ∧ (∀ m ∈ r1.db.messages, m.sid = r1.sid → m.role ≠ "system")
         ∧ (∀ (db2 : DB) (p2 : String) (st2 : StreamResult) (r2 : ChatResult),
             (∀ m ∈ db2.messages, m.sid = r1.sid → m.role ≠ "system") →
             chat p2 (some r1.sid) st2 db2 = .ok r2 →
             ∀ e ∈ r2.sent, e.1 ≠ "system")) :=
  ⟨_, rfl, chat_system_prompt_in_memory_only "hi" ⟨[some "ok"], none⟩ initDB _
    (by decide) (by intro m hm; simp [initDB] at hm) rfl⟩

/-- C1 (counterexample to the claim, exhibiting the code's behavior): on a
store with no sessions and no current selection, `:cs 999` prints
`unknown session id: 999` — but, the `return` being missing, still sets the
current selection to session 999 instead of leaving it unchanged. -/
theorem continue_session_switches_to_unknown_sid :
    initDB.sessions = []
    ∧ continue_session "999" ⟨initDB, none, []⟩
        = ⟨initDB, some 999, ["unknown session id: 999"]⟩ := ⟨rfl, rfl⟩

/-- C6 (counterexample to the claim, exhibiting the code's behavior):
appending a message for session id 999 to a store that contains no sessions
at all succeeds and stores the row — the declared foreign key is never
enforced — instead of failing with NotFound and storing nothing. -/
theorem save_history_unknown_sid_inserts :
    initDB.sessions = []
    ∧ (save_history initDB 999 "user" "hi").messages
        = [⟨1, 999, "user", "hi", 0⟩] := ⟨rfl, rfl⟩

/-- C7 (counterexample to the claim, exhibiting the code's behavior): after
`:cs 999` on an empty store (handled, but it switches the selection to the
nonexistent session 999), the next chat turn raises a `TypeError` that the
chat branch of `ClaiRepl.default` does not catch, so the error escapes the
read-eval loop and terminates the REPL. -/
theorem repl_uncaught_error_on_chat_turn :
    default_line ":cs 999" ⟨[], none⟩ ⟨initDB, none, []⟩
      = .ok ⟨initDB, some 999, ["unknown session id: 999"]⟩
    ∧ default_line "hello" ⟨[], none⟩ ⟨initDB, some 999, ["unknown session id: 999"]⟩
      = .error "TypeError: NoneType object is not subscriptable" := ⟨rfl, rfl⟩

/-- C8: schema initialization is idempotent and non-destructive — when the
tables already exist it changes nothing at all (no creation, no alteration,
every stored session and message row untouched), and when both tables are
absent it creates exactly the two tables. -/
theorem setup_local_dbs_idempotent (db : DB) :
    (db.hasMessagesTable = true → setup_local_dbs db = .ok db)
    ∧ (db.hasMessagesTable = false → db.hasSessionsTable = false →
        setup_local_dbs db
          = .ok { db with hasSessionsTable := true, hasMessagesTable := true }) := by
  constructor
  · intro h
    simp [setup_local_dbs, h]
  · intro h1 h2
    simp [setup_local_dbs, h1, h2]

/-- Witness for C8: re-running schema initialization on an initialized store
returns it unchanged. -/
theorem setup_local_dbs_idempotent_witness :
    setup_local_dbs initDB = .ok initDB :=
  (setup_local_dbs_idempotent initDB).1 rfl

end Claii
